import Mathlib

/-!
Verification of the tg-drive-archiver repository's provisioning and
archival-dispatch core against its specification.

Each definition below is a shallow embedding of a function of the
repository's Python source (file and function named in the doc comment).
Python strings become `String`, Python ints become `Int`/`Nat`, `None`
becomes `Option`, raised exceptions become `Except`, and the JSON state
document becomes the inductive `JVal`.  External services (Google Drive,
Sheets, Telegram) are modelled as explicit state values threaded through
the functions, mirroring the fake-provider testing discipline the spec
itself prescribes.
-/

namespace TgDriveArchiver

/-! ## Python string primitives (src/utils.py) -/

/-- Whitespace characters stripped by Python `str.strip()` (ASCII subset). -/
def pyWhitespace : List Char := [' ', '\t', '\n', '\r', '\x0b', '\x0c']

def isPySpace (c : Char) : Bool := pyWhitespace.contains c

/-- Characters removed by `re.sub(r'[\\/*?:"<>|]', "", name)` in
`utils.sanitize_name`. -/
def ILLEGAL_CHARS : List Char := ['\\', '/', '*', '?', ':', '"', '<', '>', '|']

/-- Embedding of Python `str.strip()` on a character list. -/
def stripChars (l : List Char) : List Char :=
  ((l.dropWhile isPySpace).reverse.dropWhile isPySpace).reverse

/-- Embedding of `utils.sanitize_name(name, default)` (src/utils.py lines
6-19): empty input falls back to the default, otherwise the characters
illegal for Drive names are removed, surrounding whitespace is stripped,
and an empty residue again falls back to the default. -/
def sanitize_name (name : String) (default : String) : String :=
  if name = "" then default
  else if stripChars (name.toList.filter (fun c => !ILLEGAL_CHARS.contains c)) = [] then
    default
  else
    String.mk (stripChars (name.toList.filter (fun c => !ILLEGAL_CHARS.contains c)))

/-- A name is clean when it is non-empty, contains no Drive-illegal
character, and neither starts nor ends with Python whitespace; on such
names `sanitize_name` is the identity. -/
def isCleanName (s : String) : Bool :=
  let l := s.toList
  !l.isEmpty &&
  l.all (fun c => !ILLEGAL_CHARS.contains c) &&
  (match l.head? with | some c => !isPySpace c | none => true) &&
  (match l.getLast? with | some c => !isPySpace c | none => true)

/-! ## Root folder naming (src/bot.py `_ensure_group_structure`, lines 121-124) -/

/-- The APP_NAME configuration default (src/config.py line 17). -/
def APP_NAME : String := "SetupBridge"

/-- Embedding of the root-folder name computation
`f"{APP_NAME} - {sanitize_name(chat_title, str(chat_id))}"` from
`_ensure_group_structure` (src/bot.py line 123). -/
def rootFolderName (chat_id : Int) (chat_title : String) : String :=
  APP_NAME ++ " - " ++ sanitize_name chat_title (toString chat_id)

/-- A title makes `sanitize_name` fall back to its default exactly when it
is empty or strips down to nothing. -/
def sanitizesToDefault (t : String) : Bool :=
  t = "" || stripChars (t.toList.filter (fun c => !ILLEGAL_CHARS.contains c)) = []

/-! ### Helper lemmas on stripping -/

theorem dropWhile_of_head_not {p : Char → Bool} :
    ∀ l : List Char, (∀ c, l.head? = some c → p c = false) → l.dropWhile p = l := by
  intro l h
  cases l with
  | nil => rfl
  | cons a t =>
    have ha : p a = false := h a rfl
    simp [List.dropWhile, ha]

theorem stripChars_of_clean (l : List Char)
    (h1 : ∀ c, l.head? = some c → isPySpace c = false)
    (h2 : ∀ c, l.getLast? = some c → isPySpace c = false) :
    stripChars l = l := by
  unfold stripChars
  rw [dropWhile_of_head_not l h1]
  rw [dropWhile_of_head_not l.reverse (by
    intro c hc
    apply h2
    rwa [List.head?_reverse] at hc)]
  exact l.reverse_reverse

theorem mk_ne_empty_of_ne_nil {l : List Char} (h : l ≠ []) : String.mk l ≠ "" := by
  intro he
  exact h (by simpa using congrArg String.data he)

/-- C5 proof core: sanitize with a non-empty default never returns the
empty string. -/
theorem sanitize_name_ne_empty (name default : String) (hd : default ≠ "") :
    sanitize_name name default ≠ "" := by
  unfold sanitize_name
  split
  · exact hd
  · split
    · exact hd
    · exact mk_ne_empty_of_ne_nil (by assumption)

/-- C5 proof core: sanitizing an already-clean name returns it unchanged. -/
theorem sanitize_name_clean (name default : String) (hc : isCleanName name = true) :
    sanitize_name name default = name := by
  unfold isCleanName at hc
  simp only [Bool.and_eq_true] at hc
  obtain ⟨⟨⟨hne, hall⟩, hhead⟩, hlast⟩ := hc
  have hnempty : name ≠ "" := by
    intro h
    subst h
    simp at hne
  have hfilter : name.toList.filter (fun c => !ILLEGAL_CHARS.contains c) = name.toList := by
    rw [List.filter_eq_self]
    intro a ha
    exact (List.all_eq_true.mp hall) a ha
  have hstrip : stripChars (name.toList.filter (fun c => !ILLEGAL_CHARS.contains c))
      = name.toList := by
    rw [hfilter]
    apply stripChars_of_clean
    · intro c hc2
      rw [hc2] at hhead
      simpa using hhead
    · intro c hc2
      rw [hc2] at hlast
      simpa using hlast
  unfold sanitize_name
  rw [if_neg hnempty]
  simp only [hstrip]
  have hnil : name.toList ≠ [] := by
    intro h
    rw [h] at hne
    simp at hne
  rw [if_neg hnil]
  cases name
  rfl

/-- C5: name sanitization strips the Drive-illegal characters and never
returns an empty string: with a non-empty fallback default the result is
always non-empty, the empty name falls back to the default,
`sanitize_name "a/b*c" "x" = "abc"` (non-empty, characters stripped), and
an already-clean name round-trips unchanged. -/
theorem C5_sanitize_name_spec (name default : String) (hd : default ≠ "") :
    sanitize_name name default ≠ "" ∧
    sanitize_name "" "x" = "x" ∧
    sanitize_name "a/b*c" "x" = "abc" ∧
    (isCleanName name = true → sanitize_name name default = name) := by
  refine ⟨sanitize_name_ne_empty name default hd, rfl, rfl, ?_⟩
  intro hc
  exact sanitize_name_clean name default hc

/-- C5 witness: the sanitize specification instantiated at the concrete
name "abc" with default "x". -/
theorem C5_sanitize_name_spec_witness :
    sanitize_name "abc" "x" ≠ "" ∧
    sanitize_name "" "x" = "x" ∧
    sanitize_name "a/b*c" "x" = "abc" ∧
    sanitize_name "abc" "x" = "abc" := by
  have h := C5_sanitize_name_spec "abc" "x" (by decide)
  exact ⟨h.1, h.2.1, h.2.2.1, h.2.2.2 (by decide)⟩

/-- C8 counterexample: two distinct group ids with the same title "Team"
produce the same root folder name, so the id does not keep root-folder
names unique. -/
theorem C8_rootFolderName_collision :
    (1 : Int) ≠ 2 ∧ rootFolderName 1 "Team" = rootFolderName 2 "Team" :=
  ⟨by decide, rfl⟩

/-- C8 amended: the root folder name is the application name plus the
sanitized group title, with the group id used only as the sanitize
fallback when the title is empty or strips to nothing; hence two distinct
groups whose shared title does not sanitize to the fallback receive the
same root folder name, and the id appears in the name exactly in the
fallback case. -/
theorem C8_rootFolderName_spec (c1 c2 : Int) (t : String)
    (h : sanitizesToDefault t = false) :
    rootFolderName c1 t = rootFolderName c2 t ∧
    (∀ s, sanitizesToDefault s = true →
      rootFolderName c1 s = APP_NAME ++ " - " ++ toString c1) := by
  constructor
  · unfold sanitizesToDefault at h
    simp only [Bool.or_eq_false_iff, decide_eq_false_iff_not] at h
    obtain ⟨hne, hnil⟩ := h
    unfold rootFolderName sanitize_name
    rw [if_neg hne, if_neg hnil, if_neg hne, if_neg hnil]
  · intro s hs
    unfold sanitizesToDefault at hs
    simp only [Bool.or_eq_true, decide_eq_true_eq] at hs
    unfold rootFolderName sanitize_name
    rcases hs with hs | hs
    · rw [if_pos hs]
    · by_cases he : s = ""
      · rw [if_pos he]
      · rw [if_neg he, if_pos hs]

/-- C8 witness: the amended root-naming specification instantiated at the
ids 1 and 2 and the title "Team". -/
theorem C8_rootFolderName_spec_witness :
    rootFolderName 1 "Team" = rootFolderName 2 "Team" ∧
    rootFolderName 1 "" = APP_NAME ++ " - " ++ toString (1 : Int) := by
  have h := C8_rootFolderName_spec 1 2 "Team" (by decide)
  exact ⟨h.1, h.2 "" (by decide)⟩

/-! ## Timestamps (src/utils.py `now_iso`, lines 22-26) -/

/-- A Python `datetime.datetime` value as produced by `datetime.utcnow()`. -/
structure PyDateTime where
  year : Nat
  month : Nat
  day : Nat
  hour : Nat
  minute : Nat
  second : Nat
  microsecond : Nat
deriving DecidableEq

/-- Left-pads the decimal rendering of `n` with zeros to `width` digits,
as Python `%02d`-style formatting inside `datetime.isoformat()`. -/
def padNum (width n : Nat) : String :=
  let s := toString n
  if s.length < width then String.mk (List.replicate (width - s.length) '0') ++ s else s

/-- Embedding of Python `datetime.isoformat()` (default separator "T"):
date and time down to seconds, with a 6-digit fractional part appended
exactly when the microsecond component is non-zero. -/
def isoformat (d : PyDateTime) : String :=
  padNum 4 d.year ++ "-" ++ padNum 2 d.month ++ "-" ++ padNum 2 d.day ++ "T" ++
  padNum 2 d.hour ++ ":" ++ padNum 2 d.minute ++ ":" ++ padNum 2 d.second ++
  (if d.microsecond = 0 then "" else "." ++ padNum 6 d.microsecond)

/-- Embedding of `utils.now_iso()` = `datetime.utcnow().isoformat()`,
parametrized by the current UTC time the interpreter would observe. -/
def now_iso (now : PyDateTime) : String := isoformat now

/-- Modelled from the spec words for comparison: a UTC ISO-8601 timestamp
at second precision ("timestamp (UTC, ISO-8601, second precision)"),
i.e. the date-time string with no fractional-seconds part. -/
def specTimestampSecondPrecision (d : PyDateTime) : String :=
  padNum 4 d.year ++ "-" ++ padNum 2 d.month ++ "-" ++ padNum 2 d.day ++ "T" ++
  padNum 2 d.hour ++ ":" ++ padNum 2 d.minute ++ ":" ++ padNum 2 d.second

/-! ## Inbound message model (aiogram message fields read by src/bot.py) -/

structure TgUser where
  id : Int
  full_name : String
deriving DecidableEq

structure PhotoSize where
  file_id : String
  file_unique_id : String
deriving DecidableEq

structure TgVideo where
  file_id : String
  file_unique_id : String
deriving DecidableEq

structure TgDocument where
  file_id : String
  file_unique_id : String
  file_name : Option String
deriving DecidableEq

structure TgAudio where
  file_id : String
  file_unique_id : String
  file_name : Option String
deriving DecidableEq

structure TgVoice where
  file_id : String
  file_unique_id : String
deriving DecidableEq

structure TgSticker where
  file_id : String
  file_unique_id : String
  is_animated : Bool
deriving DecidableEq

/-- The structured message fields the archive dispatcher reads
(text, caption, sender, and the attachment variants). -/
structure TgMessage where
  message_id : Int
  text : Option String
  caption : Option String
  from_user : Option TgUser
  photo : List PhotoSize
  video : Option TgVideo
  document : Option TgDocument
  audio : Option TgAudio
  voice : Option TgVoice
  sticker : Option TgSticker
deriving DecidableEq

/-- Python truthiness of an optional string: `None` and `""` are falsy. -/
def truthyStr : Option String → Bool
  | none => false
  | some s => !(s == "")

/-- Embedding of the Python idiom `a or alt` on an optional string. -/
def pyOrStr (o : Option String) (alt : String) : String :=
  match o with
  | some s => if s == "" then alt else s
  | none => alt

/-- Embedding of `sender = r.from_user.full_name if r.from_user else
"Unknown"` (src/bot.py line 599). -/
def senderName (m : TgMessage) : String :=
  match m.from_user with
  | some u => u.full_name
  | none => "Unknown"

/-- Embedding of `sender_id = r.from_user.id if r.from_user else ""`
followed by `str(sender_id)` (src/bot.py lines 600 and 606): the string
form of the sender id, or the empty string when there is no sender. -/
def senderIdStr (m : TgMessage) : String :=
  match m.from_user with
  | some u => toString u.id
  | none => ""

/-- Embedding of the ledger row built in `archive_cmd` (src/bot.py line
606): `[now_iso(), group_title, sender, str(sender_id),
str(r.message_id), text]` where `text = r.text or r.caption or ""`. -/
def mkArchiveRow (now : PyDateTime) (group_title : String) (m : TgMessage) : List String :=
  [now_iso now, group_title, senderName m, senderIdStr m,
   toString m.message_id, pyOrStr m.text (pyOrStr m.caption "")]

/-! ## Archive dispatcher events (src/bot.py `archive_cmd`, lines 593-657)

The dispatcher itself (`archiveDispatch` / `archive_cmd_events`) is
defined further below, after the media-transfer embedding it runs. -/

/-- An observable action of one dispatcher invocation: a ledger append,
an attempted media upload (download plus upload call for the scratch
file, keyed by `folder_key` under the given remote name), the success
reply of line 653, or the failure reply the outer `except` sends
(line 657) with the escaped error's string form. -/
inductive ArchiveEvent where
  | ledgerAppend (row : List String)
  | uploadAttempt (folder_key : String) (name : String)
  | replyDone
  | replyFailed (e : String)
deriving DecidableEq

def ArchiveEvent.isLedger : ArchiveEvent → Bool
  | .ledgerAppend _ => true
  | _ => false

def ArchiveEvent.isUpload : ArchiveEvent → Bool
  | .uploadAttempt _ _ => true
  | _ => false

def ArchiveEvent.isUploadTo (k : String) : ArchiveEvent → Bool
  | .uploadAttempt k2 _ => k2 == k
  | _ => false

def hasLedger (evs : List ArchiveEvent) : Bool := evs.any ArchiveEvent.isLedger

def hasUploadTo (k : String) (evs : List ArchiveEvent) : Bool :=
  evs.any (ArchiveEvent.isUploadTo k)

/-- C6 counterexample: at a UTC instant whose microsecond component is
123456, the ledger row's timestamp cell carries a 6-digit fractional
part, so it is not the second-precision ISO-8601 form the claim states. -/
theorem C6_timestamp_not_second_precision :
    (mkArchiveRow ⟨2024, 1, 2, 3, 4, 5, 123456⟩ "G"
      ⟨7, some "hello", none, some ⟨42, "Alice"⟩, [],
        none, none, none, none, none⟩).head? =
      some "2024-01-02T03:04:05.123456" ∧
    "2024-01-02T03:04:05.123456" ≠
      specTimestampSecondPrecision ⟨2024, 1, 2, 3, 4, 5, 123456⟩ := by
  constructor
  · rfl
  · decide

/-- C6 amended: the archived ledger row is exactly {timestamp, group
title, sender display name or the literal "Unknown" when there is no
sender, sender id as a string (empty when there is no sender), source
message id as a string, the raw text (text, else caption, else empty)} —
but the timestamp is Python `isoformat()` output: second precision ONLY
when the microsecond component is zero, otherwise extended with a 6-digit
fractional part. -/
theorem C6_archive_row_spec (now : PyDateTime) (title : String) (m : TgMessage) :
    mkArchiveRow now title m =
      [specTimestampSecondPrecision now ++
        (if now.microsecond = 0 then "" else "." ++ padNum 6 now.microsecond),
       title,
       (match m.from_user with | some u => u.full_name | none => "Unknown"),
       (match m.from_user with | some u => toString u.id | none => ""),
       toString m.message_id,
       pyOrStr m.text (pyOrStr m.caption "")] ∧
    (now.microsecond = 0 → now_iso now = specTimestampSecondPrecision now) := by
  constructor
  · simp only [mkArchiveRow, now_iso, isoformat, specTimestampSecondPrecision,
      senderName, senderIdStr, String.append_assoc]
  · intro h
    simp [now_iso, isoformat, specTimestampSecondPrecision, h]

/-- C6 witness: the amended row specification instantiated at a concrete
zero-microsecond instant and a concrete text message. -/
theorem C6_archive_row_spec_witness :
    mkArchiveRow ⟨2024, 1, 2, 3, 4, 5, 0⟩ "G"
      ⟨7, some "hello", none, some ⟨42, "Alice"⟩, [],
        none, none, none, none, none⟩ =
      ["2024-01-02T03:04:05", "G", "Alice", "42", "7", "hello"] ∧
    now_iso ⟨2024, 1, 2, 3, 4, 5, 0⟩ =
      specTimestampSecondPrecision ⟨2024, 1, 2, 3, 4, 5, 0⟩ := by
  have h := C6_archive_row_spec ⟨2024, 1, 2, 3, 4, 5, 0⟩ "G"
    ⟨7, some "hello", none, some ⟨42, "Alice"⟩, [], none, none, none, none, none⟩
  exact ⟨by rw [h.1]; rfl, h.2 rfl⟩

/-! ## Persistent state document and read accessors (src/storage.py) -/

/-- A JSON-like value as held in the state document `self.data`
(null, booleans, integers, strings, arrays, objects). -/
inductive JVal where
  | jnull
  | jbool (b : Bool)
  | jint (n : Int)
  | jstr (s : String)
  | jarr (xs : List JVal)
  | jobj (kvs : List (String × JVal))

/-- The top-level state document: `Storage.data` is always a dict. -/
def StateDoc := List (String × JVal)

/-- Python `dict.get(k)`: the value at the first matching key, if any. -/
def jGet (kvs : List (String × JVal)) (k : String) : Option JVal :=
  (kvs.find? (fun p => p.1 == k)).map (fun p => p.2)

/-- Embedding of `Storage.get_user` (src/storage.py lines 58-61) composed
with `Storage._users` (lines 51-56): the per-user dict, or the empty dict
whenever the `users` entry or the user's entry is absent or not a dict. -/
def get_user (data : StateDoc) (user_id : Int) : List (String × JVal) :=
  match jGet data "users" with
  | some (.jobj users) =>
    match jGet users (toString user_id) with
    | some (.jobj u) => u
    | _ => []
  | _ => []

/-- Embedding of `Storage.get_group` (src/storage.py lines 97-100)
composed with `Storage._groups` (lines 90-95). -/
def get_group (data : StateDoc) (chat_id : Int) : List (String × JVal) :=
  match jGet data "groups" with
  | some (.jobj groups) =>
    match jGet groups (toString chat_id) with
    | some (.jobj g) => g
    | _ => []
  | _ => []

/-- Digit-string parse used by Python `int(str)`. -/
def parseDigits (l : List Char) : Option Nat :=
  match l with
  | [] => none
  | _ =>
    if l.all (fun c => c.isDigit) then
      some (l.foldl (fun acc c => acc * 10 + (c.toNat - 48)) 0)
    else none

/-- Python `int()` on a string: surrounding whitespace is ignored, an
optional sign precedes a non-empty digit run; anything else raises. -/
def pyIntOfString (s : String) : Option Int :=
  match stripChars s.toList with
  | [] => none
  | c :: rest =>
    if c = '-' then (parseDigits rest).map (fun n => -(n : Int))
    else if c = '+' then (parseDigits rest).map (fun n => (n : Int))
    else (parseDigits (c :: rest)).map (fun n => (n : Int))

/-- Python `int(v)` on a JSON value, with the exception it raises when the
value is not integer-like (bools are Python ints; digit strings parse). -/
def pyIntExn : JVal → Except String Int
  | .jbool b => .ok (if b then 1 else 0)
  | .jint n => .ok n
  | .jstr s =>
    match pyIntOfString s with
    | some n => .ok n
    | none => .error "ValueError"
  | .jnull => .error "TypeError"
  | .jarr _ => .error "TypeError"
  | .jobj _ => .error "TypeError"

/-- Embedding of `Storage.get_pending_group_for` (src/storage.py lines
125-136): `None` when the pending entry is absent or not a dict, when the
`chat_id` key is absent or `None`, or when `int(chat_id)` raises
(the `try`/`except` swallows the exception); the parsed id otherwise. -/
def get_pending_group_for (data : StateDoc) (user_id : Int) : Option Int :=
  match jGet data "pending" with
  | some (.jobj pending) =>
    match jGet pending (toString user_id) with
    | some (.jobj item) =>
      match jGet item "chat_id" with
      | none => none
      | some .jnull => none
      | some v =>
        match pyIntExn v with
        | .ok n => some n
        | .error _ => none
    | _ => none
  | _ => none

/-- C10: the Storage read accessors are total on arbitrary stored data —
`get_user`/`get_group` yield a non-empty dict only when the corresponding
entry exists and is a dict (so every absent or malformed shape collapses
to the empty dict rather than an error), and `get_pending_group_for`
yields an id only from an existing pending dict whose `chat_id` converts
with `int()`, returning `None` instead of propagating the conversion
exception when `int()` raises. -/
theorem C10_storage_read_total (data : StateDoc) (uid : Int) :
    (get_user data uid ≠ [] →
      ∃ users, jGet data "users" = some (.jobj users) ∧
        jGet users (toString uid) = some (.jobj (get_user data uid))) ∧
    (get_group data uid ≠ [] →
      ∃ groups, jGet data "groups" = some (.jobj groups) ∧
        jGet groups (toString uid) = some (.jobj (get_group data uid))) ∧
    (∀ n, get_pending_group_for data uid = some n →
      ∃ pending item v, jGet data "pending" = some (.jobj pending) ∧
        jGet pending (toString uid) = some (.jobj item) ∧
        jGet item "chat_id" = some v ∧ pyIntExn v = .ok n) ∧
    (∀ pending item v e, jGet data "pending" = some (.jobj pending) →
      jGet pending (toString uid) = some (.jobj item) →
      jGet item "chat_id" = some v → pyIntExn v = .error e →
      get_pending_group_for data uid = none) := by
  refine ⟨?_, ?_, ?_, ?_⟩
  · intro h
    cases hju : jGet data "users" with
    | none => simp [get_user, hju] at h
    | some v =>
      cases v with
      | jobj users =>
        cases hji : jGet users (toString uid) with
        | none => simp [get_user, hju, hji] at h
        | some u =>
          cases u with
          | jobj kvs =>
            have hg : get_user data uid = kvs := by simp [get_user, hju, hji]
            exact ⟨users, rfl, by rw [hg]; exact hji⟩
          | jnull => simp [get_user, hju, hji] at h
          | jbool b => simp [get_user, hju, hji] at h
          | jint n => simp [get_user, hju, hji] at h
          | jstr s => simp [get_user, hju, hji] at h
          | jarr xs => simp [get_user, hju, hji] at h
      | jnull => simp [get_user, hju] at h
      | jbool b => simp [get_user, hju] at h
      | jint n => simp [get_user, hju] at h
      | jstr s => simp [get_user, hju] at h
      | jarr xs => simp [get_user, hju] at h
  · intro h
    cases hju : jGet data "groups" with
    | none => simp [get_group, hju] at h
    | some v =>
      cases v with
      | jobj groups =>
        cases hji : jGet groups (toString uid) with
        | none => simp [get_group, hju, hji] at h
        | some u =>
          cases u with
          | jobj kvs =>
            have hg : get_group data uid = kvs := by simp [get_group, hju, hji]
            exact ⟨groups, rfl, by rw [hg]; exact hji⟩
          | jnull => simp [get_group, hju, hji] at h
          | jbool b => simp [get_group, hju, hji] at h
          | jint n => simp [get_group, hju, hji] at h
          | jstr s => simp [get_group, hju, hji] at h
          | jarr xs => simp [get_group, hju, hji] at h
      | jnull => simp [get_group, hju] at h
      | jbool b => simp [get_group, hju] at h
      | jint n => simp [get_group, hju] at h
      | jstr s => simp [get_group, hju] at h
      | jarr xs => simp [get_group, hju] at h
  · intro n h
    cases hjp : jGet data "pending" with
    | none => simp [get_pending_group_for, hjp] at h
    | some v =>
      cases v with
      | jobj pending =>
        cases hji : jGet pending (toString uid) with
        | none => simp [get_pending_group_for, hjp, hji] at h
        | some u =>
          cases u with
          | jobj item =>
            cases hjc : jGet item "chat_id" with
            | none => simp [get_pending_group_for, hjp, hji, hjc] at h
            | some w =>
              refine ⟨pending, item, w, rfl, hji, hjc, ?_⟩
              cases w with
              | jnull => simp [get_pending_group_for, hjp, hji, hjc] at h
              | jbool b =>
                have := h
                simp only [get_pending_group_for, hjp, hji, hjc] at this
                cases he : pyIntExn (.jbool b) with
                | ok k => rw [he] at this; simp at this; rw [this]
                | error e => rw [he] at this; simp at this
              | jint k =>
                have := h
                simp only [get_pending_group_for, hjp, hji, hjc] at this
                cases he : pyIntExn (.jint k) with
                | ok k2 => rw [he] at this; simp at this; rw [this]
                | error e => rw [he] at this; simp at this
              | jstr s =>
                have := h
                simp only [get_pending_group_for, hjp, hji, hjc] at this
                cases he : pyIntExn (.jstr s) with
                | ok k2 => rw [he] at this; simp at this; rw [this]
                | error e => rw [he] at this; simp at this
              | jarr xs =>
                have := h
                simp only [get_pending_group_for, hjp, hji, hjc] at this
                cases he : pyIntExn (.jarr xs) with
                | ok k2 => rw [he] at this; simp at this; rw [this]
                | error e => rw [he] at this; simp at this
              | jobj kvs =>
                have := h
                simp only [get_pending_group_for, hjp, hji, hjc] at this
                cases he : pyIntExn (.jobj kvs) with
                | ok k2 => rw [he] at this; simp at this; rw [this]
                | error e => rw [he] at this; simp at this
          | jnull => simp [get_pending_group_for, hjp, hji] at h
          | jbool b => simp [get_pending_group_for, hjp, hji] at h
          | jint k => simp [get_pending_group_for, hjp, hji] at h
          | jstr s => simp [get_pending_group_for, hjp, hji] at h
          | jarr xs => simp [get_pending_group_for, hjp, hji] at h
      | jnull => simp [get_pending_group_for, hjp] at h
      | jbool b => simp [get_pending_group_for, hjp] at h
      | jint k => simp [get_pending_group_for, hjp] at h
      | jstr s => simp [get_pending_group_for, hjp] at h
      | jarr xs => simp [get_pending_group_for, hjp] at h
  · intro pending item v e hjp hji hjc he
    cases v with
    | jnull => simp [get_pending_group_for, hjp, hji, hjc]
    | jbool b => simp [get_pending_group_for, hjp, hji, hjc, he]
    | jint k => simp [get_pending_group_for, hjp, hji, hjc, he]
    | jstr s => simp [get_pending_group_for, hjp, hji, hjc, he]
    | jarr xs => simp [get_pending_group_for, hjp, hji, hjc, he]
    | jobj kvs => simp [get_pending_group_for, hjp, hji, hjc, he]

/-- C10 witness: at a concrete document whose pending entry holds a
non-numeric `chat_id` string, the pending accessor returns `None` even
though `int()` raises on that value. -/
theorem C10_storage_read_total_witness :
    pyIntExn (.jstr "abc") = .error "ValueError" ∧
    get_pending_group_for
      [("pending", .jobj [("1", .jobj [("chat_id", .jstr "abc")])])] 1 = none :=
  ⟨rfl,
    (C10_storage_read_total
      [("pending", .jobj [("1", .jobj [("chat_id", .jstr "abc")])])] 1).2.2.2
      [("1", .jobj [("chat_id", .jstr "abc")])] [("chat_id", .jstr "abc")]
      (.jstr "abc") "ValueError" rfl rfl rfl rfl⟩

/-! ## Association-map helpers (Python dict by lookup behaviour) -/

/-- Python `dict.get(k)` on a string-keyed map. -/
def dictLookup (d : List (String × String)) (k : String) : Option String :=
  (d.find? (fun p => p.1 == k)).map (fun p => p.2)

/-- Python `d[k] = v`: observationally (by lookup) the map with `k` bound
to `v` and every other key unchanged. -/
def dictInsert (d : List (String × String)) (k v : String) : List (String × String) :=
  d.filter (fun p => !(p.1 == k)) ++ [(k, v)]

theorem dictLookup_insert_self (d : List (String × String)) (k v : String) :
    dictLookup (dictInsert d k v) k = some v := by
  unfold dictLookup dictInsert
  rw [List.find?_append]
  have h1 : (d.filter (fun p => !(p.1 == k))).find? (fun p => p.1 == k) = none := by
    rw [List.find?_eq_none]
    intro x hx
    have := (List.mem_filter.mp hx).2
    simp at this
    simp [this]
  rw [h1]
  simp

theorem find?_filter_ne_key (d : List (String × String)) (k k2 : String) (h : k2 ≠ k) :
    (d.filter (fun p => !(p.1 == k))).find? (fun p => p.1 == k2)
      = d.find? (fun p => p.1 == k2) := by
  induction d with
  | nil => rfl
  | cons a t ih =>
    by_cases hak : a.1 = k
    · have h1 : (a.1 == k2) = false := by
        simp [hak]
        exact fun he => h he.symm
      have h0 : (a.1 == k) = true := by simp [hak]
      simp [List.filter_cons, h0, List.find?, h1, ih]
    · have h0 : (a.1 == k) = false := by simp [hak]
      by_cases ha2 : a.1 = k2
      · have h1 : (a.1 == k2) = true := by simp [ha2]
        simp [List.filter_cons, h0, List.find?, h1]
      · have h1 : (a.1 == k2) = false := by simp [ha2]
        simp [List.filter_cons, h0, List.find?, h1, ih]

theorem dictLookup_insert_other (d : List (String × String)) (k v k2 : String)
    (h : k2 ≠ k) :
    dictLookup (dictInsert d k v) k2 = dictLookup d k2 := by
  unfold dictLookup dictInsert
  rw [List.find?_append]
  have h2 : List.find? (fun p => p.1 == k2) [(k, v)] = none := by
    rw [List.find?_eq_none]
    intro x hx
    rw [List.mem_singleton] at hx
    subst hx
    simp
    exact fun he => h he.symm
  rw [h2, find?_filter_ne_key d k k2 h]
  cases d.find? (fun p => p.1 == k2) <;> rfl

/-! ## Fake Drive provider (the spec's create-counting fake) and
`drive_api.ensure_folder` / `sheets_api.create_sheet_in_drive_folder` -/

/-- A file or folder the fake Drive backend knows about. -/
structure DriveFile where
  id : String
  name : String
  parent : String
  isFolder : Bool
deriving DecidableEq

/-- The fake Drive provider state: its files, a fresh-id counter, and the
create-call counter the spec's idempotence test prescribes. -/
structure FakeDrive where
  files : List DriveFile
  nextId : Nat
  createCount : Nat
deriving DecidableEq

/-- Well-formedness of the provider: every stored id is non-empty (Drive
ids are opaque non-empty strings). -/
def FakeDrive.WF (fd : FakeDrive) : Prop := ∀ f ∈ fd.files, f.id ≠ ""

/-- Embedding of `name.replace("'", "")` (src/drive_api.py line 24). -/
def removeApostrophes (s : String) : String :=
  String.mk (s.toList.filter (fun c => !(c == '\'')))

def freshFolderId (n : Nat) : String := "folder" ++ toString n

def freshSheetId (n : Nat) : String := "sheet" ++ toString n

/-- The folder lookup query of `drive_api.ensure_folder` (lines 26-39):
first folder whose name and parent match, trashed files excluded. -/
def folderQueryFind (fd : FakeDrive) (name parent : String) : Option DriveFile :=
  fd.files.find? (fun f => f.isFolder && f.name == name && f.parent == parent)

/-- Embedding of `drive_api.ensure_folder(creds, parent_id, folder_name)`
(src/drive_api.py lines 18-54) against the fake provider: sanitize the
name (a `None` name, passed by bot.py, sanitizes to the "Folder"
default), default the parent to "root", look up by the
apostrophe-stripped name, and only create (incrementing the create
counter) when the lookup finds nothing.  The created entry keeps the
unstripped name, exactly as in the source. -/
def ensure_folder (fd : FakeDrive) (parent_id : Option String) (folder_name : Option String) :
    String × FakeDrive :=
  let name := sanitize_name (match folder_name with | some s => s | none => "") "Folder"
  let parent := match parent_id with
    | some p => if p == "" then "root" else p
    | none => "root"
  match folderQueryFind fd (removeApostrophes name) parent with
  | some f => (f.id, fd)
  | none =>
    let fid := freshFolderId fd.nextId
    (fid, { fd with files := fd.files ++ [⟨fid, name, parent, true⟩],
                    nextId := fd.nextId + 1,
                    createCount := fd.createCount + 1 })

/-- Embedding of `sheets_api.create_sheet_in_drive_folder` (src/sheets_api.py
lines 14-53): sanitize the title, unconditionally create the spreadsheet
file under the folder (one create call), return its id.  The header-row
write goes to the Sheets service and does not alter Drive state. -/
def create_sheet_in_drive_folder (fd : FakeDrive) (folder_id : String) (title : String) :
    String × FakeDrive :=
  let t := sanitize_name title "Text Archive"
  let sid := freshSheetId fd.nextId
  (sid, { fd with files := fd.files ++ [⟨sid, t, folder_id, false⟩],
                  nextId := fd.nextId + 1,
                  createCount := fd.createCount + 1 })

/-! ## Group records and the group store (the fields
`_ensure_group_structure` reads and writes) -/

/-- The GroupRecord fields the provisioner touches: `drive_user_id`,
`root_folder_id`, the typed-folder mapping and `sheet_id`
(absent keys modelled as `none` / the empty map). -/
structure GroupRec where
  drive_user_id : Option Int
  root_folder_id : Option String
  folders : List (String × String)
  sheet_id : Option String
deriving DecidableEq

def GroupRec.empty : GroupRec := ⟨none, none, [], none⟩

/-- Python truthiness of an optional integer: `None` and `0` are falsy. -/
def truthyOptInt : Option Int → Bool
  | none => false
  | some n => !(n == 0)

def GroupStore := List (Int × GroupRec)

/-- Embedding of `Storage.get_group` restricted to the typed fields: the
stored record, or the empty record when the group is unknown. -/
def storeGetGroup (st : GroupStore) (chat_id : Int) : GroupRec :=
  ((st.find? (fun p => p.1 == chat_id)).map (fun p => p.2)).getD GroupRec.empty

/-- Embedding of `Storage.set_group`: rebinds the chat id to the record
(observationally by lookup). -/
def storeSetGroup (st : GroupStore) (chat_id : Int) (g : GroupRec) : GroupStore :=
  st.filter (fun p => !(p.1 == chat_id)) ++ [(chat_id, g)]

theorem storeGetGroup_set_self (st : GroupStore) (c : Int) (g : GroupRec) :
    storeGetGroup (storeSetGroup st c g) c = g := by
  unfold storeGetGroup storeSetGroup
  rw [List.find?_append]
  have h1 : (st.filter (fun p => !(p.1 == c))).find? (fun p => p.1 == c) = none := by
    rw [List.find?_eq_none]
    intro x hx
    have := (List.mem_filter.mp hx).2
    simp at this
    simp [this]
  rw [h1]
  simp

/-- The typed-folder key-to-name mapping of `_ensure_group_structure`
(src/bot.py lines 130-138, names from src/config.py lines 49-55). -/
def FOLDER_MAPPING : List (String × String) :=
  [("photos", "Photos"), ("videos", "Videos"), ("docs", "Documents"),
   ("audio", "Audio"), ("voice", "Voice"), ("stickers", "Stickers"), ("other", "Other")]

/-- One iteration of the typed-folder loop (src/bot.py lines 139-141): a
truthy existing reference is kept, otherwise
`ensure_folder(drive, nm, g["root_folder_id"])` is called — note the
source passes the folder display name into the `parent_id` slot and the
root reference into the `folder_name` slot of `drive_api.ensure_folder`'s
signature, and the embedding reproduces that argument order. -/
def ensureFolderStep (rootId : String) (acc : (List (String × String)) × FakeDrive)
    (kv : String × String) : (List (String × String)) × FakeDrive :=
  if truthyStr (dictLookup acc.1 kv.1) then acc
  else
    let r := ensure_folder acc.2 (some kv.2) (some rootId)
    (dictInsert acc.1 kv.1 r.1, r.2)

/-- The root-folder step of `_ensure_group_structure` (src/bot.py lines
122-124): keep a truthy existing reference, otherwise call
`ensure_folder(drive, root_name, None)` — again with the source's
argument order, the computed root name landing in the `parent_id` slot. -/
def provisionRoot (fd : FakeDrive) (g : GroupRec) (chat_id : Int) (title : String) :
    String × FakeDrive :=
  if truthyStr g.root_folder_id then (g.root_folder_id.getD "", fd)
  else ensure_folder fd (some (rootFolderName chat_id title)) none

/-- The ledger-sheet step of `_ensure_group_structure` (src/bot.py lines
145-147): keep a truthy existing reference, otherwise create the sheet
under the root folder with the "Text Archive - <sanitized title>" name. -/
def provisionSheet (fd : FakeDrive) (g : GroupRec) (rootId : String) (chat_id : Int)
    (title : String) : String × FakeDrive :=
  if truthyStr g.sheet_id then (g.sheet_id.getD "", fd)
  else create_sheet_in_drive_folder fd rootId
    ("Text Archive - " ++ sanitize_name title (toString chat_id))

/-- Embedding of `_ensure_group_structure(creds, chat_id, chat_title)`
(src/bot.py lines 108-150): read the group record; without a truthy
`drive_user_id` store it back (with the id normalized to `None`) and stop;
otherwise ensure root folder, the seven typed folders in fixed order, and
the ledger sheet — each only when its stored reference is falsy — then
persist the record.  Returns the record, the store and the provider. -/
def ensureGroupStructure (st : GroupStore) (fd : FakeDrive) (chat_id : Int)
    (title : String) : GroupRec × GroupStore × FakeDrive :=
  let g := storeGetGroup st chat_id
  if truthyOptInt g.drive_user_id then
    let pr := provisionRoot fd g chat_id title
    let pf := FOLDER_MAPPING.foldl (ensureFolderStep pr.1) (g.folders, pr.2)
    let ps := provisionSheet pf.2 g pr.1 chat_id title
    let g3 : GroupRec := { g with root_folder_id := some pr.1, folders := pf.1,
                                  sheet_id := some ps.1 }
    (g3, storeSetGroup st chat_id g3, ps.2)
  else
    let g1 : GroupRec := { g with drive_user_id := none }
    (g1, storeSetGroup st chat_id g1, fd)

/-! ### Provisioner idempotence lemmas -/

theorem freshFolderId_ne (n : Nat) : freshFolderId n ≠ "" := by
  intro h
  have hl := congrArg String.length h
  unfold freshFolderId at hl
  rw [String.length_append] at hl
  have h6 : ("folder" : String).length = 6 := rfl
  have h0 : ("" : String).length = 0 := rfl
  omega

theorem freshSheetId_ne (n : Nat) : freshSheetId n ≠ "" := by
  intro h
  have hl := congrArg String.length h
  unfold freshSheetId at hl
  rw [String.length_append] at hl
  have h5 : ("sheet" : String).length = 5 := rfl
  have h0 : ("" : String).length = 0 := rfl
  omega

theorem ensure_folder_id_ne (fd : FakeDrive) (p n : Option String)
    (h : FakeDrive.WF fd) : (ensure_folder fd p n).1 ≠ "" := by
  simp only [ensure_folder]
  split
  · next f hf => exact h f (List.mem_of_find?_eq_some hf)
  · exact freshFolderId_ne fd.nextId

theorem ensure_folder_WF (fd : FakeDrive) (p n : Option String)
    (h : FakeDrive.WF fd) : FakeDrive.WF (ensure_folder fd p n).2 := by
  simp only [ensure_folder]
  split
  · exact h
  · intro f hf
    rcases List.mem_append.mp hf with hmem | hmem
    · exact h f hmem
    · rw [List.mem_singleton] at hmem
      subst hmem
      exact freshFolderId_ne fd.nextId

theorem create_sheet_WF (fd : FakeDrive) (folderId title : String)
    (h : FakeDrive.WF fd) : FakeDrive.WF (create_sheet_in_drive_folder fd folderId title).2 := by
  simp only [create_sheet_in_drive_folder]
  intro f hf
  rcases List.mem_append.mp hf with hmem | hmem
  · exact h f hmem
  · rw [List.mem_singleton] at hmem
    subst hmem
    exact freshSheetId_ne fd.nextId

theorem provisionRoot_id_ne (fd : FakeDrive) (g : GroupRec) (c : Int) (t : String)
    (h : FakeDrive.WF fd) : (provisionRoot fd g c t).1 ≠ "" := by
  unfold provisionRoot
  split
  · next htr =>
    cases hs : g.root_folder_id with
    | none => rw [hs] at htr; simp [truthyStr] at htr
    | some s =>
      rw [hs] at htr
      simp [truthyStr] at htr
      simpa [hs] using htr
  · exact ensure_folder_id_ne fd _ _ h

theorem provisionRoot_WF (fd : FakeDrive) (g : GroupRec) (c : Int) (t : String)
    (h : FakeDrive.WF fd) : FakeDrive.WF (provisionRoot fd g c t).2 := by
  unfold provisionRoot
  split
  · exact h
  · exact ensure_folder_WF fd _ _ h

theorem provisionRoot_of_truthy (fd : FakeDrive) (g : GroupRec) (c : Int) (t : String)
    (s : String) (hs : g.root_folder_id = some s) (hne : s ≠ "") :
    provisionRoot fd g c t = (s, fd) := by
  unfold provisionRoot
  rw [if_pos (by simp [truthyStr, hs, hne])]
  simp [hs]

theorem provisionSheet_id_ne (fd : FakeDrive) (g : GroupRec) (rootId : String)
    (c : Int) (t : String) : (provisionSheet fd g rootId c t).1 ≠ "" := by
  unfold provisionSheet
  split
  · next htr =>
    cases hs : g.sheet_id with
    | none => rw [hs] at htr; simp [truthyStr] at htr
    | some s =>
      rw [hs] at htr
      simp [truthyStr] at htr
      simpa [hs] using htr
  · simp only [create_sheet_in_drive_folder]
    exact freshSheetId_ne fd.nextId

theorem provisionSheet_WF (fd : FakeDrive) (g : GroupRec) (rootId : String)
    (c : Int) (t : String) (h : FakeDrive.WF fd) :
    FakeDrive.WF (provisionSheet fd g rootId c t).2 := by
  unfold provisionSheet
  split
  · exact h
  · exact create_sheet_WF fd _ _ h

theorem provisionSheet_of_truthy (fd : FakeDrive) (g : GroupRec) (rootId : String)
    (c : Int) (t : String) (s : String) (hs : g.sheet_id = some s) (hne : s ≠ "") :
    provisionSheet fd g rootId c t = (s, fd) := by
  unfold provisionSheet
  rw [if_pos (by simp [truthyStr, hs, hne])]
  simp [hs]

theorem ensureFolderStep_skip (rootId : String) (fs : List (String × String))
    (fd : FakeDrive) (kv : String × String)
    (h : truthyStr (dictLookup fs kv.1) = true) :
    ensureFolderStep rootId (fs, fd) kv = (fs, fd) := by
  unfold ensureFolderStep
  rw [if_pos h]

theorem foldl_step_skip (rootId : String) (keys : List (String × String))
    (fs : List (String × String)) (fd : FakeDrive)
    (h : ∀ kv ∈ keys, truthyStr (dictLookup fs kv.1) = true) :
    keys.foldl (ensureFolderStep rootId) (fs, fd) = (fs, fd) := by
  induction keys with
  | nil => rfl
  | cons kv rest ih =>
    rw [List.foldl_cons, ensureFolderStep_skip rootId fs fd kv (h kv (List.mem_cons_self kv rest))]
    exact ih (fun kv2 hm => h kv2 (List.mem_cons_of_mem _ hm))

theorem foldl_step_spec (rootId : String) (keys : List (String × String))
    (fs : List (String × String)) (fd : FakeDrive) (hWF : FakeDrive.WF fd) :
    FakeDrive.WF (keys.foldl (ensureFolderStep rootId) (fs, fd)).2 ∧
    (∀ kv ∈ keys,
      truthyStr (dictLookup (keys.foldl (ensureFolderStep rootId) (fs, fd)).1 kv.1) = true) ∧
    (∀ k, truthyStr (dictLookup fs k) = true →
      truthyStr (dictLookup (keys.foldl (ensureFolderStep rootId) (fs, fd)).1 k) = true) := by
  induction keys generalizing fs fd with
  | nil => exact ⟨hWF, by simp, fun k hk => hk⟩
  | cons kv rest ih =>
    by_cases hkv : truthyStr (dictLookup fs kv.1) = true
    · rw [List.foldl_cons, ensureFolderStep_skip rootId fs fd kv hkv]
      obtain ⟨iwf, iall, ipre⟩ := ih fs fd hWF
      refine ⟨iwf, ?_, ipre⟩
      intro kv2 hm
      rcases List.mem_cons.mp hm with hm | hm
      · subst hm
        exact ipre kv2.1 hkv
      · exact iall kv2 hm
    · have hstep : ensureFolderStep rootId (fs, fd) kv =
          (dictInsert fs kv.1 (ensure_folder fd (some kv.2) (some rootId)).1,
           (ensure_folder fd (some kv.2) (some rootId)).2) := by
        unfold ensureFolderStep
        rw [if_neg hkv]
      have hidne : (ensure_folder fd (some kv.2) (some rootId)).1 ≠ "" :=
        ensure_folder_id_ne fd _ _ hWF
      have hwf2 : FakeDrive.WF (ensure_folder fd (some kv.2) (some rootId)).2 :=
        ensure_folder_WF fd _ _ hWF
      rw [List.foldl_cons, hstep]
      obtain ⟨iwf, iall, ipre⟩ := ih _ _ hwf2
      have hself : truthyStr (dictLookup
          (dictInsert fs kv.1 (ensure_folder fd (some kv.2) (some rootId)).1) kv.1) = true := by
        rw [dictLookup_insert_self]
        simp [truthyStr, hidne]
      refine ⟨iwf, ?_, ?_⟩
      · intro kv2 hm
        rcases List.mem_cons.mp hm with hm | hm
        · subst hm
          exact ipre kv2.1 hself
        · exact iall kv2 hm
      · intro k hk
        by_cases hkk : k = kv.1
        · subst hkk
          exact ipre kv.1 hself
        · apply ipre
          rw [dictLookup_insert_other fs kv.1 _ k hkk]
          exact hk

/-- A group record is stable for the provisioner when either no drive user
is linked (and the id is the normalized `None`), or all references are
present and truthy. -/
theorem ensureGroupStructure_stable (st : GroupStore) (fd : FakeDrive) (c : Int)
    (t : String) (g : GroupRec) (hg : storeGetGroup st c = g)
    (hstable :
      (truthyOptInt g.drive_user_id = false ∧ g.drive_user_id = none) ∨
      (truthyOptInt g.drive_user_id = true ∧
       (∃ r, g.root_folder_id = some r ∧ r ≠ "") ∧
       (∀ kv ∈ FOLDER_MAPPING, truthyStr (dictLookup g.folders kv.1) = true) ∧
       (∃ s2, g.sheet_id = some s2 ∧ s2 ≠ ""))) :
    ensureGroupStructure st fd c t = (g, storeSetGroup st c g, fd) := by
  obtain ⟨du, rt, fo, sh⟩ := g
  rcases hstable with ⟨hd, hdu⟩ | ⟨hd, ⟨r, hr, hrne⟩, hfolders, ⟨s2, hs2, hs2ne⟩⟩
  · simp only at hdu
    subst hdu
    unfold ensureGroupStructure
    rw [hg]
    rw [if_neg (by simp only at hd; rw [hd]; simp)]
  · simp only at hr hs2
    subst hr
    subst hs2
    have h1 : provisionRoot fd ⟨du, some r, fo, some s2⟩ c t = (r, fd) :=
      provisionRoot_of_truthy fd _ c t r rfl hrne
    have h2 : FOLDER_MAPPING.foldl (ensureFolderStep r) (fo, fd) = (fo, fd) :=
      foldl_step_skip r FOLDER_MAPPING fo fd (by simpa using hfolders)
    have h3 : provisionSheet fd ⟨du, some r, fo, some s2⟩ r c t = (s2, fd) :=
      provisionSheet_of_truthy fd _ r c t s2 rfl hs2ne
    unfold ensureGroupStructure
    rw [hg]
    rw [if_pos (by simpa using hd)]
    simp only [h1, h2, h3]

/-- C2: the structure provisioner is idempotent — running
`_ensure_group_structure` twice in sequence (same group, same title)
against a well-formed provider returns the same group record the second
time, leaves the provider state untouched (in particular the create-call
counter), because every reference stored by the first run is re-checked
in the record and found truthy. -/
theorem C2_provisioner_idempotent (st : GroupStore) (fd : FakeDrive) (chat_id : Int)
    (title : String) (hWF : FakeDrive.WF fd) :
    (ensureGroupStructure
        (ensureGroupStructure st fd chat_id title).2.1
        (ensureGroupStructure st fd chat_id title).2.2 chat_id title).1
      = (ensureGroupStructure st fd chat_id title).1 ∧
    (ensureGroupStructure
        (ensureGroupStructure st fd chat_id title).2.1
        (ensureGroupStructure st fd chat_id title).2.2 chat_id title).2.2
      = (ensureGroupStructure st fd chat_id title).2.2 ∧
    (ensureGroupStructure
        (ensureGroupStructure st fd chat_id title).2.1
        (ensureGroupStructure st fd chat_id title).2.2 chat_id title).2.2.createCount
      = (ensureGroupStructure st fd chat_id title).2.2.createCount := by
  rcases hgg : storeGetGroup st chat_id with ⟨du, rt, fo, sh⟩
  by_cases hd : truthyOptInt du = true
  · have hrootne : (provisionRoot fd ⟨du, rt, fo, sh⟩ chat_id title).1 ≠ "" :=
      provisionRoot_id_ne fd _ chat_id title hWF
    have hrootwf : FakeDrive.WF (provisionRoot fd ⟨du, rt, fo, sh⟩ chat_id title).2 :=
      provisionRoot_WF fd _ chat_id title hWF
    rcases hpr : provisionRoot fd ⟨du, rt, fo, sh⟩ chat_id title with ⟨rootId, fd1⟩
    rw [hpr] at hrootne hrootwf
    simp only at hrootne hrootwf
    obtain ⟨hfwf, hfall, hfpre⟩ :=
      foldl_step_spec rootId FOLDER_MAPPING fo fd1 hrootwf
    rcases hpf : FOLDER_MAPPING.foldl (ensureFolderStep rootId) (fo, fd1)
      with ⟨folders2, fd2⟩
    rw [hpf] at hfwf hfall
    simp only at hfwf hfall
    have hsne : (provisionSheet fd2 ⟨du, rt, fo, sh⟩ rootId chat_id title).1 ≠ "" :=
      provisionSheet_id_ne fd2 _ rootId chat_id title
    rcases hps : provisionSheet fd2 ⟨du, rt, fo, sh⟩ rootId chat_id title
      with ⟨sheetId, fd3⟩
    rw [hps] at hsne
    simp only at hsne
    have hcall1 : ensureGroupStructure st fd chat_id title =
        (⟨du, some rootId, folders2, some sheetId⟩,
         storeSetGroup st chat_id ⟨du, some rootId, folders2, some sheetId⟩,
         fd3) := by
      unfold ensureGroupStructure
      rw [hgg]
      rw [if_pos (show truthyOptInt (GroupRec.mk du rt fo sh).drive_user_id = true from hd)]
      simp only [hpr, hpf, hps]
    have hcall2 := ensureGroupStructure_stable
      (storeSetGroup st chat_id ⟨du, some rootId, folders2, some sheetId⟩)
      fd3 chat_id title
      ⟨du, some rootId, folders2, some sheetId⟩
      (storeGetGroup_set_self st chat_id _)
      (Or.inr ⟨hd, ⟨rootId, rfl, hrootne⟩, by simpa using hfall,
        ⟨sheetId, rfl, hsne⟩⟩)
    rw [hcall1]
    simp only
    rw [hcall2]
    exact ⟨rfl, rfl, rfl⟩
  · have hcall1 : ensureGroupStructure st fd chat_id title =
        (⟨none, rt, fo, sh⟩,
         storeSetGroup st chat_id ⟨none, rt, fo, sh⟩,
         fd) := by
      unfold ensureGroupStructure
      rw [hgg]
      rw [if_neg (show ¬ truthyOptInt (GroupRec.mk du rt fo sh).drive_user_id = true from hd)]
    have hcall2 := ensureGroupStructure_stable
      (storeSetGroup st chat_id ⟨none, rt, fo, sh⟩)
      fd chat_id title
      ⟨none, rt, fo, sh⟩
      (storeGetGroup_set_self st chat_id _)
      (Or.inl ⟨rfl, rfl⟩)
    rw [hcall1]
    simp only
    rw [hcall2]
    exact ⟨rfl, rfl, rfl⟩

/-- C2 witness: a linked but unprovisioned group against an empty fake
provider — the second ensure call returns the same record and does not
change the provider state or its create counter. -/
theorem C2_provisioner_idempotent_witness :
    (ensureGroupStructure
        (ensureGroupStructure [(1, ⟨some 5, none, [], none⟩)] ⟨[], 0, 0⟩ 1 "Team").2.1
        (ensureGroupStructure [(1, ⟨some 5, none, [], none⟩)] ⟨[], 0, 0⟩ 1 "Team").2.2
        1 "Team").1
      = (ensureGroupStructure [(1, ⟨some 5, none, [], none⟩)] ⟨[], 0, 0⟩ 1 "Team").1 ∧
    (ensureGroupStructure
        (ensureGroupStructure [(1, ⟨some 5, none, [], none⟩)] ⟨[], 0, 0⟩ 1 "Team").2.1
        (ensureGroupStructure [(1, ⟨some 5, none, [], none⟩)] ⟨[], 0, 0⟩ 1 "Team").2.2
        1 "Team").2.2
      = (ensureGroupStructure [(1, ⟨some 5, none, [], none⟩)] ⟨[], 0, 0⟩ 1 "Team").2.2 ∧
    (ensureGroupStructure
        (ensureGroupStructure [(1, ⟨some 5, none, [], none⟩)] ⟨[], 0, 0⟩ 1 "Team").2.1
        (ensureGroupStructure [(1, ⟨some 5, none, [], none⟩)] ⟨[], 0, 0⟩ 1 "Team").2.2
        1 "Team").2.2.createCount
      = (ensureGroupStructure [(1, ⟨some 5, none, [], none⟩)] ⟨[], 0, 0⟩ 1 "Team").2.2.createCount :=
  C2_provisioner_idempotent [(1, ⟨some 5, none, [], none⟩)] ⟨[], 0, 0⟩ 1 "Team"
    (by intro f hf; simp at hf)

/-! ## Media transfer: scratch download, upload, scoped cleanup
(src/tg_media.py, src/drive_api.py `upload_file`, src/bot.py
`archive_cmd._upload` lines 615-625) -/

/-- The scratch directory `TMP_DIR` (src/config.py line 39) as a path. -/
def TMP_DIR : String := "tmp"

/-- Embedding of `os.remove(p)` on a set-of-paths file system: removes the
file, raising `FileNotFoundError` when it does not exist. -/
def os_remove (fs : List String) (p : String) : Except String (List String) :=
  if p ∈ fs then .ok (fs.filter (fun q => !(q == p))) else .error "FileNotFoundError"

/-- Embedding of the scoped cleanup `try: os.remove(local) except
Exception: pass` (src/bot.py lines 622-625): a removal failure is
swallowed and the file system is returned unchanged. -/
def removeSwallow (fs : List String) (p : String) : List String :=
  match os_remove fs p with
  | .ok fs2 => fs2
  | .error _ => fs

/-- Embedding of `tg_media.download_telegram_file(bot, file_id, tmp_dir,
suggested_name)` (src/tg_media.py lines 10-29): the scratch path is
`os.path.join(tmp_dir, sanitize_name(suggested_name, "file"))` and the
download writes that file.  Returns the path and the updated file
system (the MIME type guess is threaded separately by the caller). -/
def download_telegram_file (fs : List String) (tmp_dir name : String) :
    String × List String :=
  (tmp_dir ++ "/" ++ sanitize_name name "file",
   if (tmp_dir ++ "/" ++ sanitize_name name "file") ∈ fs then fs
   else fs ++ [tmp_dir ++ "/" ++ sanitize_name name "file"])

/-- Embedding of `os.path.basename`. -/
def basename (p : String) : String := (p.splitOn "/").getLastD p

/-- The arguments the Drive create call of an upload actually receives. -/
structure UploadCall where
  parent : String
  name : String
  mime : Option String
deriving DecidableEq

def freshFileId (n : Nat) : String := "file" ++ toString n

/-- Embedding of `drive_api.upload_file(creds, parent_id, local_path,
filename, mime_type)` (src/drive_api.py lines 56-77): raises
`FileNotFoundError` when `local_path` does not exist, otherwise creates a
file named `sanitize_name(filename or basename(local_path), "file")`
under `parent_id` with the given MIME type. -/
def upload_file (fd : FakeDrive) (fs : List String) (parent_id : String)
    (local_path : String) (filename : Option String) (mime_type : Option String) :
    Except String (String × FakeDrive × UploadCall) :=
  if local_path ∈ fs then
    .ok (freshFileId fd.nextId,
         ⟨fd.files ++ [⟨freshFileId fd.nextId,
            sanitize_name (pyOrStr filename (basename local_path)) "file",
            parent_id, false⟩],
          fd.nextId + 1, fd.createCount + 1⟩,
         ⟨parent_id, sanitize_name (pyOrStr filename (basename local_path)) "file", mime_type⟩)
  else .error ("FileNotFoundError: " ++ local_path)

/-- Embedding of `archive_cmd._upload(file_id, folder_key, name)`
(src/bot.py lines 615-625): download to scratch, then inside the `try`
call `upload_file(drive, local, name, g["folders"][folder_key],
mime_type=mime)` — note these positional arguments land in
`drive_api.upload_file`'s `(parent_id, local_path, filename)` slots in
exactly that order, and a missing folder key raises `KeyError` — and in
the `finally` remove the scratch file, swallowing removal failures.
Returns the upload outcome and the final file system. -/
def archive_media_upload (fd : FakeDrive) (fs : List String)
    (folders : List (String × String)) (folder_key name : String)
    (mime : Option String) :
    Except String (String × FakeDrive × UploadCall) × List String :=
  ((match dictLookup folders folder_key with
    | none => Except.error "KeyError"
    | some folderRef =>
        upload_file fd (download_telegram_file fs TMP_DIR name).2
          (download_telegram_file fs TMP_DIR name).1 name (some folderRef) mime),
   removeSwallow (download_telegram_file fs TMP_DIR name).2
     (download_telegram_file fs TMP_DIR name).1)

theorem not_mem_filter_out (fs : List String) (p : String) :
    p ∉ fs.filter (fun q => !(q == p)) := by
  intro h
  have := (List.mem_filter.mp h).2
  simp at this

theorem mem_download (fs : List String) (tmp name : String) :
    (download_telegram_file fs tmp name).1 ∈ (download_telegram_file fs tmp name).2 := by
  unfold download_telegram_file
  by_cases h : (tmp ++ "/" ++ sanitize_name name "file") ∈ fs
  · simp [h]
  · simp [h]

/-- C4: the scratch file written by the download is deleted by the scoped
cleanup whatever the upload attempt did (success, FileNotFoundError,
missing folder key): after `archive_cmd._upload` the scratch path is
absent from the file system, the upload outcome is reported unchanged by
the cleanup, and a removal failure is swallowed (the cleanup returns the
file system rather than raising). -/
theorem C4_scratch_cleanup (fd : FakeDrive) (fs : List String)
    (folders : List (String × String)) (folder_key name : String)
    (mime : Option String) :
    (TMP_DIR ++ "/" ++ sanitize_name name "file")
      ∉ (archive_media_upload fd fs folders folder_key name mime).2 ∧
    (archive_media_upload fd fs folders folder_key name mime).1 =
      (match dictLookup folders folder_key with
       | none => Except.error "KeyError"
       | some folderRef =>
           upload_file fd (download_telegram_file fs TMP_DIR name).2
             (download_telegram_file fs TMP_DIR name).1 name (some folderRef) mime) ∧
    (∀ fs2 p, p ∉ fs2 →
      os_remove fs2 p = .error "FileNotFoundError" ∧ removeSwallow fs2 p = fs2) := by
  refine ⟨?_, rfl, ?_⟩
  · have hmem := mem_download fs TMP_DIR name
    have hloc : (download_telegram_file fs TMP_DIR name).1
        = TMP_DIR ++ "/" ++ sanitize_name name "file" := rfl
    rw [hloc] at hmem
    unfold archive_media_upload
    simp only
    unfold removeSwallow os_remove
    rw [hloc]
    rw [if_pos hmem]
    exact not_mem_filter_out _ _
  · intro fs2 p hp
    constructor
    · unfold os_remove
      rw [if_neg hp]
    · unfold removeSwallow os_remove
      rw [if_neg hp]

/-- C4 witness: the cleanup specification at a concrete photo transfer —
the scratch path is gone afterwards, and removing a non-existent file
fails yet is swallowed. -/
theorem C4_scratch_cleanup_witness :
    ("tmp/photo_u1.jpg" : String)
      ∉ (archive_media_upload ⟨[], 0, 0⟩ [] [("photos", "folder0")] "photos"
          "photo_u1.jpg" (some "image/jpeg")).2 ∧
    os_remove [] "gone.bin" = .error "FileNotFoundError" ∧
    removeSwallow [] "gone.bin" = [] :=
  have h := C4_scratch_cleanup ⟨[], 0, 0⟩ [] [("photos", "folder0")] "photos"
    "photo_u1.jpg" (some "image/jpeg")
  ⟨h.1, (h.2.2 [] "gone.bin" (by simp)).1, (h.2.2 [] "gone.bin" (by simp)).2⟩

/-- C9: evaluating the dispatcher's upload call shows the argument-order
bug — `archive_cmd._upload` passes `(local, name, folder_ref)` into
`drive_api.upload_file`'s `(parent_id, local_path, filename)` slots, so
archiving a photo raises `FileNotFoundError` on the remote name
("photo_u1.jpg" is not a local path) instead of uploading the scratch
file into the photos folder; and even when a file by that name happens to
exist, the created entry's parent is the scratch path and its name is the
folder reference — never an upload into the kind's folder reference as
`upload_file`'s own docstring specifies. -/
theorem C9_upload_misroutes :
    (archive_media_upload ⟨[], 0, 0⟩ [] [("photos", "folder0")] "photos"
        "photo_u1.jpg" (some "image/jpeg")).1
      = Except.error "FileNotFoundError: photo_u1.jpg" ∧
    (archive_media_upload ⟨[], 0, 0⟩ ["photo_u1.jpg"] [("photos", "folder0")] "photos"
        "photo_u1.jpg" (some "image/jpeg")).1
      = Except.ok ("file0",
          ⟨[⟨"file0", "folder0", "tmp/photo_u1.jpg", false⟩], 1, 1⟩,
          ⟨"tmp/photo_u1.jpg", "folder0", some "image/jpeg"⟩) ∧
    ("tmp/photo_u1.jpg" : String) ≠ "folder0" := by
  refine ⟨by rfl, by rfl, by decide⟩

/-! ## Device-flow polling (src/google_device_flow.py
`poll_device_flow_token`, lines 41-72) -/

/-- One token-endpoint answer: a token, `authorization_pending`,
`slow_down`, or a terminal error (denied / expired / invalid). -/
inductive TokenResp where
  | success (tok : String)
  | pending
  | slowDown
  | failure (e : String)

/-- Outcome of the poll loop. -/
inductive PollOutcome where
  | ok (tok : String)
  | timeout
  | failed (e : String)
deriving DecidableEq

/-- Embedding of the `while waited < timeout_sec` loop of
`poll_device_flow_token`: the provider's answer to the `i`-th request
drives the loop; on pending/slow-down it sleeps `interval`
(plus 2 on slow-down) and adds `interval` to `waited`; a token or a
terminal error exits; once `waited` reaches `timeout_sec` the loop ends
and the timeout error is raised.  `elapsed` accumulates the slept
wall-clock seconds.  The positive-interval hypothesis is exactly what
makes the source loop terminate against an always-pending provider. -/
def pollAux (resp : Nat → TokenResp) (interval timeout_sec : Nat)
    (hpos : 0 < interval) (i waited elapsed : Nat) : PollOutcome × Nat :=
  if _hlt : waited < timeout_sec then
    match resp i with
    | .success tok => (.ok tok, elapsed)
    | .pending =>
        pollAux resp interval timeout_sec hpos (i + 1) (waited + interval) (elapsed + interval)
    | .slowDown =>
        pollAux resp interval timeout_sec hpos (i + 1) (waited + interval) (elapsed + interval + 2)
    | .failure e => (.failed e, elapsed)
  else (.timeout, elapsed)
termination_by timeout_sec - waited
decreasing_by all_goals omega

/-- Embedding of `poll_device_flow_token(path, device_code, interval,
timeout_sec)`: run the loop from zero waited time. -/
def poll_device_flow_token (resp : Nat → TokenResp) (interval timeout_sec : Nat)
    (hpos : 0 < interval) : PollOutcome × Nat :=
  pollAux resp interval timeout_sec hpos 0 0 0

/-- A provider stub that always answers `authorization_pending`. -/
def alwaysPending : Nat → TokenResp := fun _ => .pending

/-- Total wall-clock sleep of the always-pending loop:
`interval` times the ceiling of `n / interval`. -/
def pollSleep (interval n : Nat) : Nat := interval * ((n + interval - 1) / interval)

theorem pollSleep_bounds (i n : Nat) (hi : 0 < i) :
    n ≤ pollSleep i n ∧ pollSleep i n < n + i := by
  unfold pollSleep
  have hdm := Nat.div_add_mod (n + i - 1) i
  have hmod := Nat.mod_lt (n + i - 1) hi
  constructor <;> omega

theorem pollSleep_step (i n : Nat) (hi : 0 < i) (hn : 0 < n) :
    pollSleep i n = i + pollSleep i (n - i) := by
  unfold pollSleep
  rcases le_or_lt n i with h | h
  · have h1 : (n + i - 1) / i = 1 :=
      Nat.div_eq_of_lt_le (by omega) (by omega)
    have h2 : n - i = 0 := by omega
    have h3 : (0 + i - 1) / i = 0 := Nat.div_eq_of_lt (by omega)
    rw [h1, h2, h3]
    omega
  · have h4 : n + i - 1 = ((n - i) + i - 1) + i := by omega
    rw [h4, Nat.add_div_right _ hi, Nat.mul_succ]
    omega

theorem pollAux_always_pending (interval timeout_sec : Nat) (hpos : 0 < interval)
    (resp : Nat → TokenResp) (hresp : ∀ j, resp j = .pending) :
    ∀ n waited i elapsed, timeout_sec - waited = n →
      pollAux resp interval timeout_sec hpos i waited elapsed
        = (.timeout, elapsed + pollSleep interval (timeout_sec - waited)) := by
  intro n
  induction n using Nat.strong_induction_on with
  | _ n ih =>
    intro waited i elapsed hn
    by_cases hlt : waited < timeout_sec
    · rw [pollAux]
      rw [dif_pos hlt, hresp i]
      have hrec := ih (timeout_sec - (waited + interval)) (by omega)
        (waited + interval) (i + 1) (elapsed + interval) rfl
      rw [hrec]
      have hstep := pollSleep_step interval (timeout_sec - waited) hpos (by omega)
      have harg : timeout_sec - waited - interval = timeout_sec - (waited + interval) := by
        omega
      rw [hstep, harg]
      have := pollSleep_bounds interval (timeout_sec - (waited + interval)) hpos
      simp [Nat.add_assoc]
    · rw [pollAux]
      rw [dif_neg hlt]
      have hz : timeout_sec - waited = 0 := by omega
      rw [hz]
      have h3 : (0 + interval - 1) / interval = 0 := Nat.div_eq_of_lt (by omega)
      unfold pollSleep
      rw [h3]
      simp

/-- C3: against a provider that keeps answering `authorization_pending`,
the poll loop terminates with the timeout error after sleeping at least
`timeout_sec` and less than `timeout_sec + interval` wall-clock seconds —
in particular, with `timeout_sec = 5` and `interval = 2` it reports
timeout after exactly 6 seconds, inside the claimed 5-7 second window. -/
theorem C3_poll_always_pending_times_out (interval timeout_sec : Nat)
    (hpos : 0 < interval) :
    (poll_device_flow_token alwaysPending interval timeout_sec hpos).1
      = PollOutcome.timeout ∧
    timeout_sec ≤ (poll_device_flow_token alwaysPending interval timeout_sec hpos).2 ∧
    (poll_device_flow_token alwaysPending interval timeout_sec hpos).2
      < timeout_sec + interval := by
  have h := pollAux_always_pending interval timeout_sec hpos alwaysPending
    (fun j => rfl) (timeout_sec - 0) 0 0 0 rfl
  unfold poll_device_flow_token
  rw [h]
  have hb := pollSleep_bounds interval (timeout_sec - 0) hpos
  refine ⟨rfl, ?_, ?_⟩ <;> simp at hb ⊢ <;> omega

/-- C3 witness: the poll specification at `interval = 2`,
`timeout_sec = 5` — the loop returns the timeout outcome after an elapsed
sleep between 5 and 7 seconds. -/
theorem C3_poll_always_pending_times_out_witness :
    (poll_device_flow_token alwaysPending 2 5 (by decide)).1 = PollOutcome.timeout ∧
    5 ≤ (poll_device_flow_token alwaysPending 2 5 (by decide)).2 ∧
    (poll_device_flow_token alwaysPending 2 5 (by decide)).2 < 7 :=
  C3_poll_always_pending_times_out 2 5 (by decide)

/-! ## Device-flow verification handler (src/bot.py `drive_menu`, the
`verify` action, lines 526-559, and `_save_user_creds`, lines 88-95) -/

/-- An in-memory device flow entry of `DEVICE_FLOWS` (src/bot.py line 37). -/
structure DeviceFlow where
  device_code : String
  user_code : String
  verification_url : String
  interval : Nat
deriving DecidableEq

/-- The methods `class Storage` actually defines (src/storage.py): any
other attribute access on the store raises `AttributeError`. -/
def STORAGE_METHODS : List String :=
  ["load", "save", "get", "set", "get_user", "set_user", "get_user_lang",
   "set_user_lang", "get_user_creds_file", "set_user_creds_file",
   "get_group", "set_group", "set_pending", "clear_pending",
   "get_pending_group_for"]

def storageHasMethod (m : String) : Bool := STORAGE_METHODS.contains m

/-- Embedding of `_save_user_creds(user_id, token_json)` (src/bot.py
lines 88-95): write the token blob to `data/creds_<user_id>.json`, then
call `store.set_user_creds(user_id, path, email=None)` — a method
`Storage` does not define, so the call raises `AttributeError` after the
file write.  Returns the outcome and the credential-file system. -/
def save_user_creds (credFiles : List (String × String)) (user_id : Int)
    (token_json : String) : Except String String × List (String × String) :=
  (if storageHasMethod "set_user_creds" then
     Except.ok ("data/creds_" ++ toString user_id ++ ".json")
   else
     Except.error "AttributeError: Storage object has no attribute set_user_creds",
   dictInsert credFiles ("data/creds_" ++ toString user_id ++ ".json") token_json)

/-- The state the verify handler touches: the in-memory `DEVICE_FLOWS`
map, the on-disk credential blob files, and the group store. -/
structure VerifyState where
  deviceFlows : List (Int × DeviceFlow)
  credFiles : List (String × String)
  groups : GroupStore

/-- Embedding of the `drive:verify` branch of `drive_menu` (src/bot.py
lines 526-559): missing flow or a failed poll answer `linked_fail`; on a
successful poll the handler runs `_save_user_creds`, then would bind the
group to the user and provision the structure.  An exception escaping
`_save_user_creds` propagates out of the handler, leaving every other
piece of state — including the `DEVICE_FLOWS` entry, which no code path
ever deletes — untouched. -/
def drive_verify (s : VerifyState) (fd : FakeDrive) (user_id chat_id : Int)
    (chat_title : String) (pollResult : Except String String) :
    Except String Unit × VerifyState × FakeDrive :=
  match (s.deviceFlows.find? (fun p => p.1 == user_id)).map (fun p => p.2) with
  | none => (.error "linked_fail", s, fd)
  | some _flow =>
    match pollResult with
    | .error _ => (.error "linked_fail", s, fd)
    | .ok token =>
      match save_user_creds s.credFiles user_id token with
      | (.error e, cf2) => (.error e, ⟨s.deviceFlows, cf2, s.groups⟩, fd)
      | (.ok _path, cf2) =>
        let g := storeGetGroup s.groups chat_id
        let groups2 := storeSetGroup s.groups chat_id
          ⟨some user_id, g.root_folder_id, g.folders, g.sheet_id⟩
        let r := ensureGroupStructure groups2 fd chat_id chat_title
        (.ok (), ⟨s.deviceFlows, cf2, r.2.1⟩, r.2.2)

/-- C7: evaluating the verify handler on a successful poll shows the
divergence from the claim — `_save_user_creds` writes the blob file and
then raises `AttributeError` (the store has `set_user_creds_file`, not
`set_user_creds`), so the credential path is never recorded in the state
store, the group is never bound, and the in-memory device-flow entry for
the user is NOT cleared (no code deletes it even on the would-be success
path). -/
theorem C7_verify_flow_not_cleared :
    storageHasMethod "set_user_creds" = false ∧
    storageHasMethod "set_user_creds_file" = true ∧
    drive_verify ⟨[(1, ⟨"dc", "uc", "url", 5⟩)], [], []⟩ ⟨[], 0, 0⟩ 1 99 "Team"
        (.ok "tok")
      = (.error "AttributeError: Storage object has no attribute set_user_creds",
         ⟨[(1, ⟨"dc", "uc", "url", 5⟩)], [("data/creds_1.json", "tok")], []⟩,
         ⟨[], 0, 0⟩) ∧
    ((drive_verify ⟨[(1, ⟨"dc", "uc", "url", 5⟩)], [], []⟩ ⟨[], 0, 0⟩ 1 99 "Team"
        (.ok "tok")).2.1.deviceFlows.find? (fun p => p.1 == 1)).isSome = true ∧
    get_user [] 1 = [] := by
  refine ⟨rfl, rfl, rfl, rfl, rfl⟩

/-! ## Archive dispatcher with exception propagation
(src/bot.py `archive_cmd`, lines 593-657)

The six media `if`-blocks run strictly in sequence inside one `try`: an
exception escaping `_upload` (after its `finally` cleanup) aborts every
later branch and the line-653 success reply, and the outer `except`
replies with the failure message instead.  The text/caption branch comes
first; its `append_row` is an external Sheets call, modelled as
succeeding, while the repo-level raises of the media path
(`FileNotFoundError` from `upload_file`'s existence check, `KeyError`
from the folders dict) propagate through `archive_media_upload`. -/

/-- The (folder key, remote name, MIME guess) of each populated
attachment field, in the fixed source order of the `if`-blocks
(src/bot.py lines 627-650); an unpopulated field contributes nothing.
`mimeOf` maps a `file_id` to the Content-Type the download reports. -/
def mediaBranchSpecs (m : TgMessage) (mimeOf : String → Option String) :
    List (String × String × Option String) :=
  (match m.photo.getLast? with
   | some p => [("photos", "photo_" ++ p.file_unique_id ++ ".jpg", mimeOf p.file_id)]
   | none => []) ++
  (match m.video with
   | some v => [("videos", "video_" ++ v.file_unique_id ++ ".mp4", mimeOf v.file_id)]
   | none => []) ++
  (match m.document with
   | some d => [("docs",
      sanitize_name (pyOrStr d.file_name ("doc_" ++ d.file_unique_id)) "document",
      mimeOf d.file_id)]
   | none => []) ++
  (match m.audio with
   | some a => [("audio",
      sanitize_name (pyOrStr a.file_name ("audio_" ++ a.file_unique_id ++ ".mp3")) "audio",
      mimeOf a.file_id)]
   | none => []) ++
  (match m.voice with
   | some v => [("voice", "voice_" ++ v.file_unique_id ++ ".ogg", mimeOf v.file_id)]
   | none => []) ++
  (match m.sticker with
   | some s => [("stickers",
      "sticker_" ++ s.file_unique_id ++ "." ++ (if s.is_animated = false then "webp" else "tgs"),
      mimeOf s.file_id)]
   | none => [])

/-- One media branch of `archive_cmd`: skipped entirely when an earlier
branch already raised; otherwise it runs `archive_media_upload` (the
`_upload` embedding, so download, the scrambled upload call, and the
scoped cleanup), records the attempt, and either threads the new
provider/file-system state or carries the escaped exception. -/
def runMediaBranch (folders : List (String × String))
    (acc : List ArchiveEvent × Except String (FakeDrive × List String))
    (b : String × String × Option String) :
    List ArchiveEvent × Except String (FakeDrive × List String) :=
  match acc.2 with
  | .error e => (acc.1, .error e)
  | .ok st =>
    match archive_media_upload st.1 st.2 folders b.1 b.2.1 b.2.2 with
    | (.ok r, fs2) =>
        (acc.1 ++ [ArchiveEvent.uploadAttempt b.1 b.2.1], .ok (r.2.1, fs2))
    | (.error e, _) =>
        (acc.1 ++ [ArchiveEvent.uploadAttempt b.1 b.2.1], .error e)

/-- The `try`-body of `archive_cmd` after its preconditions (src/bot.py
lines 604-650): the text/caption branch appends the ledger row, then the
populated media branches run in order until the first one raises. -/
def archiveDispatch (now : PyDateTime) (title : String) (m : TgMessage)
    (folders : List (String × String)) (fd : FakeDrive) (fs : List String)
    (mimeOf : String → Option String) :
    List ArchiveEvent × Except String (FakeDrive × List String) :=
  (mediaBranchSpecs m mimeOf).foldl (runMediaBranch folders)
    ((if truthyStr m.text || truthyStr m.caption then
        [ArchiveEvent.ledgerAppend (mkArchiveRow now title m)]
      else []),
     Except.ok (fd, fs))

/-- The events of one `archive_cmd` invocation including the reply: the
success reply of line 653 when the body ran through, otherwise the outer
`except`'s failure reply (line 657) carrying the error's string form. -/
def archive_cmd_events (now : PyDateTime) (title : String) (m : TgMessage)
    (folders : List (String × String)) (fd : FakeDrive) (fs : List String)
    (mimeOf : String → Option String) : List ArchiveEvent :=
  match archiveDispatch now title m folders fd fs mimeOf with
  | (evs, .ok _) => evs ++ [ArchiveEvent.replyDone]
  | (evs, .error e) => evs ++ [ArchiveEvent.replyFailed e]

theorem runMedia_fold_error (folders : List (String × String))
    (bs : List (String × String × Option String)) (evs0 : List ArchiveEvent)
    (e : String) :
    bs.foldl (runMediaBranch folders) (evs0, Except.error e) = (evs0, Except.error e) := by
  induction bs with
  | nil => rfl
  | cons b rest ih =>
    rw [List.foldl_cons]
    exact ih

theorem runMedia_fold_spec (folders : List (String × String)) :
    ∀ (bs : List (String × String × Option String)) (evs0 : List ArchiveEvent)
      (fdx : FakeDrive) (fsx : List String),
    ∃ k, k ≤ bs.length ∧
      (bs.foldl (runMediaBranch folders) (evs0, Except.ok (fdx, fsx))).1
        = evs0 ++ (bs.take k).map (fun b => ArchiveEvent.uploadAttempt b.1 b.2.1) ∧
      ((bs.foldl (runMediaBranch folders) (evs0, Except.ok (fdx, fsx))).2.isOk = true →
        k = bs.length) := by
  intro bs
  induction bs with
  | nil =>
    intro evs0 fdx fsx
    exact ⟨0, by simp, by simp, fun _ => rfl⟩
  | cons b rest ih =>
    intro evs0 fdx fsx
    rw [List.foldl_cons]
    rcases hr : archive_media_upload fdx fsx folders b.1 b.2.1 b.2.2 with ⟨out, fs2⟩
    cases out with
    | ok r =>
      obtain ⟨id2, fd2, call2⟩ := r
      have hstep : runMediaBranch folders (evs0, Except.ok (fdx, fsx)) b
          = (evs0 ++ [ArchiveEvent.uploadAttempt b.1 b.2.1], Except.ok (fd2, fs2)) := by
        simp only [runMediaBranch]
        rw [hr]
      rw [hstep]
      obtain ⟨k, hk, hev, hok⟩ := ih (evs0 ++ [ArchiveEvent.uploadAttempt b.1 b.2.1]) fd2 fs2
      refine ⟨k + 1, by simpa using Nat.succ_le_succ hk, ?_, ?_⟩
      · rw [hev]
        simp [List.take_succ_cons]
      · intro hok2
        have hlen := hok hok2
        simp [hlen]
    | error e =>
      have hstep : runMediaBranch folders (evs0, Except.ok (fdx, fsx)) b
          = (evs0 ++ [ArchiveEvent.uploadAttempt b.1 b.2.1], Except.error e) := by
        simp only [runMediaBranch]
        rw [hr]
      rw [hstep, runMedia_fold_error]
      refine ⟨1, by simp, ?_, ?_⟩
      · simp [List.take_succ_cons]
      · intro h2
        simp [Except.isOk, Except.toBool] at h2

theorem any_isLedger_upload_map (l : List (String × String × Option String)) :
    (l.map (fun b => ArchiveEvent.uploadAttempt b.1 b.2.1)).any ArchiveEvent.isLedger
      = false := by
  induction l with
  | nil => rfl
  | cons b r ih => simp [ArchiveEvent.isLedger, ih]

theorem filter_upload_map (l : List (String × String × Option String)) :
    (l.map (fun b => ArchiveEvent.uploadAttempt b.1 b.2.1)).filter ArchiveEvent.isUpload
      = l.map (fun b => ArchiveEvent.uploadAttempt b.1 b.2.1) := by
  rw [List.filter_eq_self]
  intro a ha
  obtain ⟨b, _, rfl⟩ := List.mem_map.mp ha
  rfl

/-- C1 counterexample: a message carrying both text and a photo gets a
ledger row AND a photo upload is attempted (download plus upload call) —
the dispatcher's branches are sequential `if`s, not an exclusive
classification, so text does not suppress the media transfer; the
attempt then raises (the C9 argument-order bug) and the handler replies
with the failure message, so neither "ledger row only" nor any of the
claim's three exclusive outcomes describes the run. -/
theorem C1_classification_not_exclusive :
    hasLedger (archive_cmd_events ⟨2024, 1, 2, 3, 4, 5, 0⟩ "G"
      ⟨7, some "hi", none, some ⟨42, "Alice"⟩, [⟨"fid", "u1"⟩],
        none, none, none, none, none⟩
      [("photos", "folder0")] ⟨[], 0, 0⟩ [] (fun _ => none)) = true ∧
    hasUploadTo "photos" (archive_cmd_events ⟨2024, 1, 2, 3, 4, 5, 0⟩ "G"
      ⟨7, some "hi", none, some ⟨42, "Alice"⟩, [⟨"fid", "u1"⟩],
        none, none, none, none, none⟩
      [("photos", "folder0")] ⟨[], 0, 0⟩ [] (fun _ => none)) = true := by
  constructor <;> rfl

/-- C1 amended: classification is not mutually exclusive and not
first-match-only — a truthy text or caption always yields a ledger
append, and the populated attachment fields are then attempted in fixed
source order, but the attempts stop at the first branch whose upload
raises: the recorded upload attempts form a prefix of the populated-field
list, covering all of it whenever the body runs through; the success
reply is sent exactly when no branch raised, otherwise the handler
replies with the failure message; and there is no NoContent outcome — a
message with no media branches always completes the body (a contentless
message performs nothing and still gets the success reply). -/
theorem C1_archive_effects_spec (now : PyDateTime) (title : String) (m : TgMessage)
    (folders : List (String × String)) (fd : FakeDrive) (fs : List String)
    (mimeOf : String → Option String) :
    hasLedger (archive_cmd_events now title m folders fd fs mimeOf)
      = (truthyStr m.text || truthyStr m.caption) ∧
    (∃ k, k ≤ (mediaBranchSpecs m mimeOf).length ∧
      (archive_cmd_events now title m folders fd fs mimeOf).filter ArchiveEvent.isUpload
        = ((mediaBranchSpecs m mimeOf).take k).map
            (fun b => ArchiveEvent.uploadAttempt b.1 b.2.1) ∧
      ((archiveDispatch now title m folders fd fs mimeOf).2.isOk = true →
        k = (mediaBranchSpecs m mimeOf).length)) ∧
    (∀ st, (archiveDispatch now title m folders fd fs mimeOf).2 = Except.ok st →
      archive_cmd_events now title m folders fd fs mimeOf
        = (archiveDispatch now title m folders fd fs mimeOf).1
          ++ [ArchiveEvent.replyDone]) ∧
    (∀ e, (archiveDispatch now title m folders fd fs mimeOf).2 = Except.error e →
      archive_cmd_events now title m folders fd fs mimeOf
        = (archiveDispatch now title m folders fd fs mimeOf).1
          ++ [ArchiveEvent.replyFailed e]) ∧
    (mediaBranchSpecs m mimeOf = [] →
      (archiveDispatch now title m folders fd fs mimeOf).2 = Except.ok (fd, fs)) := by
  obtain ⟨k, hk, hev, hok⟩ := runMedia_fold_spec folders (mediaBranchSpecs m mimeOf)
    (if truthyStr m.text || truthyStr m.caption then
      [ArchiveEvent.ledgerAppend (mkArchiveRow now title m)] else []) fd fs
  have hev2 : (archiveDispatch now title m folders fd fs mimeOf).1
      = (if truthyStr m.text || truthyStr m.caption then
          [ArchiveEvent.ledgerAppend (mkArchiveRow now title m)] else [])
        ++ ((mediaBranchSpecs m mimeOf).take k).map
            (fun b => ArchiveEvent.uploadAttempt b.1 b.2.1) := hev
  have hok2 : (archiveDispatch now title m folders fd fs mimeOf).2.isOk = true →
      k = (mediaBranchSpecs m mimeOf).length := hok
  rcases hDisp : archiveDispatch now title m folders fd fs mimeOf with ⟨evs, out⟩
  rw [hDisp] at hev2 hok2
  simp only at hev2 hok2
  have hEv : archive_cmd_events now title m folders fd fs mimeOf
      = evs ++ [match out with
                | Except.ok _ => ArchiveEvent.replyDone
                | Except.error e => ArchiveEvent.replyFailed e] := by
    unfold archive_cmd_events
    rw [hDisp]
    cases out <;> rfl
  refine ⟨?_, ⟨k, hk, ?_, hok2⟩, ?_, ?_, ?_⟩
  · rw [hEv, hev2]
    cases out <;>
      cases hc : (truthyStr m.text || truthyStr m.caption) <;>
        simp [hasLedger, List.any_append, any_isLedger_upload_map,
          ArchiveEvent.isLedger, hc]
    all_goals
      intro x hx
      obtain ⟨b, _, rfl⟩ := List.mem_map.mp (List.mem_of_mem_take hx)
      rfl
  · rw [hEv, hev2]
    cases out <;>
      cases hc : (truthyStr m.text || truthyStr m.caption) <;>
        simp [List.filter_append, filter_upload_map, ArchiveEvent.isUpload, hc]
    all_goals
      intro x hx
      obtain ⟨b, _, rfl⟩ := List.mem_map.mp (List.mem_of_mem_take hx)
      rfl
  · intro st h
    have h2 : out = Except.ok st := h
    subst h2
    rw [hEv]
  · intro e h
    have h2 : out = Except.error e := h
    subst h2
    rw [hEv]
  · intro h0
    have hinit : archiveDispatch now title m folders fd fs mimeOf
        = ((if truthyStr m.text || truthyStr m.caption then
            [ArchiveEvent.ledgerAppend (mkArchiveRow now title m)] else []),
           Except.ok (fd, fs)) := by
      unfold archiveDispatch
      rw [h0]
      rfl
    exact congrArg Prod.snd (hDisp.symm.trans hinit)

/-- C1 witness: the amended specification at a concrete text-only message
— the ledger row is produced, there are no media branches, the body runs
through and the events end with the success reply. -/
theorem C1_archive_effects_spec_witness :
    hasLedger (archive_cmd_events ⟨2024, 1, 2, 3, 4, 5, 0⟩ "G"
      ⟨7, some "hi", none, some ⟨42, "Alice"⟩, [], none, none, none, none, none⟩
      [] ⟨[], 0, 0⟩ [] (fun _ => none)) = true ∧
    archive_cmd_events ⟨2024, 1, 2, 3, 4, 5, 0⟩ "G"
      ⟨7, some "hi", none, some ⟨42, "Alice"⟩, [], none, none, none, none, none⟩
      [] ⟨[], 0, 0⟩ [] (fun _ => none)
      = (archiveDispatch ⟨2024, 1, 2, 3, 4, 5, 0⟩ "G"
          ⟨7, some "hi", none, some ⟨42, "Alice"⟩, [], none, none, none, none, none⟩
          [] ⟨[], 0, 0⟩ [] (fun _ => none)).1 ++ [ArchiveEvent.replyDone] :=
  have h := C1_archive_effects_spec ⟨2024, 1, 2, 3, 4, 5, 0⟩ "G"
    ⟨7, some "hi", none, some ⟨42, "Alice"⟩, [], none, none, none, none, none⟩
    [] ⟨[], 0, 0⟩ [] (fun _ => none)
  ⟨h.1.trans rfl, h.2.2.1 (⟨[], 0, 0⟩, []) (h.2.2.2.2 rfl)⟩

end TgDriveArchiver
